import Mathlib

/-!
Verification of the portfolio site's particle simulation and 3D-room state
machine against its specification.

The JavaScript source is embedded shallowly over `ℚ`:

* `Math.sqrt` is not rational, so every function that the source feeds
  through `Math.sqrt` takes an explicit square-root function `sqrt : ℚ → ℚ`
  as a parameter; theorems that depend on the numeric value of a distance
  hypothesise that `sqrt` returns the true nonnegative square root at the
  single point where the code evaluates it.
* JavaScript numbers are modelled as exact rationals (`0.4` is written
  `4/10`, and so on); division is Lean's total rational division, with the
  division-by-zero edge case of the repulsion code tracked by
  `repelDivisor` / `repelDivisionReached` and by the NaN-aware `updateNaN`,
  which returns `none` exactly when the source's `0/0 = NaN` would poison
  the particle position through `Math.min` / `Math.max`.
* The mutable particle object becomes a pure state-passing function
  `update`; the module state of `room3d.js` (the `roomLights` registry with
  its initially-null references, the `lightsOn` flag, the `isInitialized`
  guard) becomes the structure `Room3DState`, and the exception a null
  property write would raise becomes an `Except Unit` result carrying the
  state as mutated so far.
-/

/-- A particle of the 2D background field: position, velocity, radius and
fill opacity, as set up by `Particle.reset` and mutated by
`Particle.update` in the source. -/
structure Particle where
  x : ℚ
  y : ℚ
  speedX : ℚ
  speedY : ℚ
  size : ℚ
  opacity : ℚ
  deriving DecidableEq

/-- The method `Particle.update(mouse)` from the source, as a pure function.
Steps, in source order: add velocity to the position; if the mouse is
present, compute `dist = sqrt(dx*dx + dy*dy)` from the mouse to the moved
particle and, when `dist < 120`, displace by `(dx/dist)*force*2` per axis
with `force = (120 - dist)/120`; flip a velocity component when the
corresponding coordinate lies outside `[0, w]` (resp. `[0, h]`); finally
clamp the position into bounds with `max 0 (min bound coordinate)`. -/
def update (sqrt : ℚ → ℚ) (w h : ℚ) (mouse : Option (ℚ × ℚ)) (p : Particle) : Particle :=
  let x1 := p.x + p.speedX
  let y1 := p.y + p.speedY
  let xy : ℚ × ℚ :=
    match mouse with
    | none => (x1, y1)
    | some m =>
      let dx := x1 - m.1
      let dy := y1 - m.2
      let dist := sqrt (dx * dx + dy * dy)
      if dist < 120 then
        let force := (120 - dist) / 120
        (x1 + dx / dist * force * 2, y1 + dy / dist * force * 2)
      else (x1, y1)
  let sx := if xy.1 < 0 ∨ xy.1 > w then -p.speedX else p.speedX
  let sy := if xy.2 < 0 ∨ xy.2 > h then -p.speedY else p.speedY
  { x := max 0 (min w xy.1), y := max 0 (min h xy.2),
    speedX := sx, speedY := sy, size := p.size, opacity := p.opacity }

/-- Spec step 1: advance the position by the velocity. -/
def velStep (p : Particle) : Particle :=
  { p with x := p.x + p.speedX, y := p.y + p.speedY }

/-- Spec step 2: if the pointer is present and the Euclidean distance is
below 120, displace along the normalized pointer-to-particle vector with
magnitude `(120 - dist)/120 * 2`. -/
def repelStep (sqrt : ℚ → ℚ) (mouse : Option (ℚ × ℚ)) (p : Particle) : Particle :=
  match mouse with
  | none => p
  | some m =>
    let dx := p.x - m.1
    let dy := p.y - m.2
    let dist := sqrt (dx * dx + dy * dy)
    if dist < 120 then
      let force := (120 - dist) / 120
      { p with x := p.x + dx / dist * force * 2, y := p.y + dy / dist * force * 2 }
    else p

/-- Spec step 3: reflect a velocity component when the position crossed the
corresponding canvas bound. -/
def bounceStep (w h : ℚ) (p : Particle) : Particle :=
  { p with speedX := if p.x < 0 ∨ p.x > w then -p.speedX else p.speedX,
           speedY := if p.y < 0 ∨ p.y > h then -p.speedY else p.speedY }

/-- Spec step 4: clamp the position into `[0, w] × [0, h]`. -/
def clampStep (w h : ℚ) (p : Particle) : Particle :=
  { p with x := max 0 (min w p.x), y := max 0 (min h p.y) }

/-- Squared Euclidean distance from a particle's position to the point
`(mx, my)` (squares avoid the irrational square root; on nonnegative
distances they are order-isomorphic to the distances themselves). -/
def distSqTo (mx my : ℚ) (p : Particle) : ℚ :=
  (p.x - mx) * (p.x - mx) + (p.y - my) * (p.y - my)

/-- The divisor used by the repulsion branch of `update`: the value
`dist = sqrt(dx*dx + dy*dy)` computed from the velocity-stepped position to
the pointer `m`.  The source divides `dx` and `dy` by it. -/
def repelDivisor (sqrt : ℚ → ℚ) (m : ℚ × ℚ) (p : Particle) : ℚ :=
  sqrt ((p.x + p.speedX - m.1) * (p.x + p.speedX - m.1) +
        (p.y + p.speedY - m.2) * (p.y + p.speedY - m.2))

/-- Whether the guard `dist < 120` of the repulsion branch passes, i.e.
whether the division by `repelDivisor` is actually reached when the pointer
is present. -/
def repelDivisionReached (sqrt : ℚ → ℚ) (m : ℚ × ℚ) (p : Particle) : Bool :=
  decide (repelDivisor sqrt m p < 120)

/-- NaN-aware version of `update`.  When the pointer is present and the
repulsion guard `dist < 120` is reached with `dist = 0`, the source
computes `0/0 = NaN` (at an honest square root, `dist = 0` forces
`dx = dy = 0`); NaN then propagates through the additions, the bound
comparisons are false, and `Math.max(0, Math.min(bound, NaN))` is NaN, so
both position coordinates end as NaN — a value satisfying no bound.
`none` models that poisoned result.  On every other input the total
rational division of `update` agrees with the source, and the result is
`some` of it. -/
def updateNaN (sqrt : ℚ → ℚ) (w h : ℚ) (mouse : Option (ℚ × ℚ)) (p : Particle) :
    Option Particle :=
  match mouse with
  | none => some (update sqrt w h none p)
  | some m =>
    if repelDivisor sqrt m p < 120 ∧ repelDivisor sqrt m p = 0 then none
    else some (update sqrt w h (some m) p)

/-- Alpha of a connection line at particle distance `d`:
`0.08 * (1 - d/150)` in the source. -/
def connAlpha (d : ℚ) : ℚ :=
  8/100 * (1 - d / 150)

/-- The value `dist` between two particles as the connection pass computes it. -/
def particleDist (sqrt : ℚ → ℚ) (p q : Particle) : ℚ :=
  sqrt ((p.x - q.x) * (p.x - q.x) + (p.y - q.y) * (p.y - q.y))

/-- Body of the double loop of the connection pass for indices `(i, j)`:
for `i < j`, when both indices are in range and the distance is below 150,
one line `(i, j, alpha)` is emitted, else nothing. -/
def connAtom (sqrt : ℚ → ℚ) (ps : List Particle) (i j : ℕ) : List (ℕ × ℕ × ℚ) :=
  if i < j then
    match ps[i]?, ps[j]? with
    | some p, some q =>
      if particleDist sqrt p q < 150 then
        [(i, j, connAlpha (particleDist sqrt p q))]
      else []
    | _, _ => []
  else []

/-- The list of connection lines one frame of `animate` draws: the source
loops `i` over all indices and `j` over `i+1 .. length-1`. -/
def connectionLines (sqrt : ℚ → ℚ) (ps : List Particle) : List (ℕ × ℕ × ℚ) :=
  (List.range ps.length).flatMap fun i =>
    (List.range ps.length).flatMap fun j =>
      connAtom sqrt ps i j

/-- Whether a drawn line connects the unordered pair `{i, j}`. -/
def isLineBetween (i j : ℕ) (e : ℕ × ℕ × ℚ) : Bool :=
  (decide (e.1 = i) && decide (e.2.1 = j)) || (decide (e.1 = j) && decide (e.2.1 = i))

/-- The lines of a frame that connect the unordered pair `{i, j}`. -/
def linesBetween (i j : ℕ) (ls : List (ℕ × ℕ × ℚ)) : List (ℕ × ℕ × ℚ) :=
  ls.filter (isLineBetween i j)

/-- The `particleCount` of `initParticles`: 40 below the 768px mobile
breakpoint, 80 otherwise. -/
def particleCount (innerWidth : ℚ) : ℕ :=
  if innerWidth < 768 then 40 else 80

/-- The mutable state owned by `initParticles`: the particle array, the
canvas dimensions and the shared mouse record (`none` models
`{x: null, y: null}`). -/
structure FieldState where
  particles : List Particle
  canvasW : ℚ
  canvasH : ℚ
  mouse : Option (ℚ × ℚ)

/-- State of `initParticles` after its initial `resize()`: canvas sized to the
viewport, `particleCount` particles pushed (their randomized `reset()`
fields abstracted by `seed`), mouse absent. -/
def initParticles (innerWidth innerHeight : ℚ) (seed : ℕ → Particle) : FieldState :=
  { particles := (List.range (particleCount innerWidth)).map seed,
    canvasW := innerWidth, canvasH := innerHeight, mouse := none }

/-- The events that mutate the particle-field state after initialization:
an animation frame, a window resize, a mousemove over and a mouseleave of
the canvas. -/
inductive FieldEvent where
  | frame (sqrt : ℚ → ℚ)
  | resize (w h : ℚ)
  | mouseMove (x y : ℚ)
  | mouseLeave

/-- Effect of one event on the field state, from the handlers in
`initParticles` and from `animate` (which updates every particle in
place). -/
def stepEvent (s : FieldState) : FieldEvent → FieldState
  | .frame sqrt => { s with particles := s.particles.map (update sqrt s.canvasW s.canvasH s.mouse) }
  | .resize w h => { s with canvasW := w, canvasH := h }
  | .mouseMove x y => { s with mouse := some (x, y) }
  | .mouseLeave => { s with mouse := none }

/-- Run a sequence of events. -/
def runEvents (s : FieldState) : List FieldEvent → FieldState
  | [] => s
  | e :: es => runEvents (stepEvent s e) es

/-- The scene graph data `init3DRoom` constructs, abstracted to the
observables the claims mention: number of direct children added to the
scene (14 `scene.add` calls) and the camera/renderer parameters derived
from the container. -/
structure Scene where
  childCount : ℕ
  cameraFov : ℚ
  cameraAspect : ℚ
  rendererW : ℚ
  rendererH : ℚ
  deriving DecidableEq

/-- The container element handed to `init3DRoom`. -/
structure Container where
  width : ℚ
  height : ℚ
  deriving DecidableEq

/-- Module-level state of `room3d.js`: the `isInitialized` guard, the
`lightsOn` flag, the `roomLights` registry (every reference starts null,
modelled as `none`; a populated reference carries its intensity), the
scene (absent before construction), and a ghost counter of how many times
scene construction ran. -/
structure Room3DState where
  isInitialized : Bool
  lightsOn : Bool
  ambient : Option ℚ
  deskLight : Option ℚ
  monitorLight : Option ℚ
  ledLight : Option ℚ
  ceilingLight : Option ℚ
  fillLight : Option ℚ
  scene : Option Scene
  buildCount : ℕ
  deriving DecidableEq

/-- The scene built by `init3DRoom`: 14 `scene.add` calls, camera fov 55
with the container's aspect ratio, renderer sized to the container. -/
def buildScene (c : Container) : Scene :=
  { childCount := 14, cameraFov := 55, cameraAspect := c.width / c.height,
    rendererW := c.width, rendererH := c.height }

/-- The function `init3DRoom(container)`: returns immediately when `isInitialized` is
already set; otherwise sets the flag, builds the scene and populates the
light registry with the intensities of `createLighting` (ambient 0.4,
desk 1.2, monitor 0.8, LED 0.6, ceiling 1.5, fill 0.3).  `buildCount` is
the ghost construction counter. -/
def init3DRoom (s : Room3DState) (c : Container) : Room3DState :=
  if s.isInitialized then s
  else
    { s with isInitialized := true, scene := some (buildScene c),
             ambient := some (4/10), deskLight := some (12/10),
             monitorLight := some (8/10), ledLight := some (6/10),
             ceilingLight := some (15/10), fillLight := some (3/10),
             buildCount := s.buildCount + 1 }

/-- The function `toggleLight()`: flips `lightsOn` first, then writes the four preset
intensities in source order (ambient, desk, ceiling, fill; ON presets
0.4 / 1.2 / 1.5 / 0.3, OFF presets 0.08 / 0.1 / 0 / 0 — both source
branches assign in the same order, so they are merged here with an `if`
per value), and returns the new flag.  Writing through a null reference
raises, modelled by `Except.error ()` together with the state as mutated
up to that point; monitor and LED lights are never written. -/
def toggleLight (s : Room3DState) : Room3DState × Except Unit Bool :=
  let isOn := !s.lightsOn
  let s0 : Room3DState := { s with lightsOn := isOn }
  match s0.ambient with
  | none => (s0, Except.error ())
  | some _ =>
    let s1 : Room3DState := { s0 with ambient := some (if isOn then (4:ℚ)/10 else 8/100) }
    match s1.deskLight with
    | none => (s1, Except.error ())
    | some _ =>
      let s2 : Room3DState := { s1 with deskLight := some (if isOn then (12:ℚ)/10 else 1/10) }
      match s2.ceilingLight with
      | none => (s2, Except.error ())
      | some _ =>
        let s3 : Room3DState := { s2 with ceilingLight := some (if isOn then (15:ℚ)/10 else 0) }
        match s3.fillLight with
        | none => (s3, Except.error ())
        | some _ =>
          ({ s3 with fillLight := some (if isOn then (3:ℚ)/10 else 0) }, Except.ok isOn)

/-- Sample particle used as the seed of concrete field states. -/
def seedParticle : Particle := ⟨0, 0, 0, 0, 1, 1⟩

/-- Sample particle at the origin. -/
def particleA : Particle := ⟨0, 0, 0, 0, 1, 1⟩

/-- Sample particle at `(30, 40)`, i.e. at distance 50 from `particleA`. -/
def particleB : Particle := ⟨30, 40, 0, 0, 1, 1⟩

/-- A square-root function that is exact at `2500` (the only point the
sample computations below evaluate it at). -/
def sqrtAt2500 : ℚ → ℚ := fun q => if q = 2500 then 50 else 0

/-- A square-root function that is exact at `14641 = 121 * 121`. -/
def sqrtAt14641 : ℚ → ℚ := fun q => if q = 14641 then 121 else 0

/-- Particle at distance 119 below a pointer at `(500, 500)`, moving away
with speed 2: one velocity step takes it to tested distance 121. -/
def particleCex : Particle := ⟨500, 381, 0, -2, 1, 1⟩

/-- Particle whose velocity step lands at `(500, 450)`, distance 50 from a
pointer at `(500, 500)`. -/
def particleNear : Particle := ⟨500, 452, 0, -2, 1, 1⟩

/-- The module state of `room3d.js` as the page loads it: not initialized,
`lightsOn = true`, every light reference null, no scene. -/
def roomStateUninit : Room3DState :=
  ⟨false, true, none, none, none, none, none, none, none, 0⟩

/-- A built room in the lights-ON state, intensities as `createLighting`
leaves them. -/
def roomStateOn : Room3DState :=
  ⟨true, true, some (4/10), some (12/10), some (8/10), some (6/10),
   some (15/10), some (3/10), some (buildScene ⟨800, 600⟩), 1⟩

/-- The function `update` is exactly the pipeline of the four spec steps. -/
theorem update_eq_steps (sqrt : ℚ → ℚ) (w h : ℚ) (mouse : Option (ℚ × ℚ)) (p : Particle) :
    update sqrt w h mouse p = clampStep w h (bounceStep w h (repelStep sqrt mouse (velStep p))) := by
  cases mouse with
  | none => rfl
  | some m =>
    simp only [update, velStep, repelStep, bounceStep, clampStep]
    by_cases hc :
        sqrt ((p.x + p.speedX - m.1) * (p.x + p.speedX - m.1) +
              (p.y + p.speedY - m.2) * (p.y + p.speedY - m.2)) < 120 <;>
      simp [hc]

/-- No event changes the number of particles. -/
theorem runEvents_length (s : FieldState) (es : List FieldEvent) :
    (runEvents s es).particles.length = s.particles.length := by
  induction es generalizing s with
  | nil => rfl
  | cons e t ih => cases e <;> simp [runEvents, stepEvent, ih]

/-- Filtering distributes over `flatMap`. -/
theorem filter_flatMap_eq {α β : Type} (l : List α) (f : α → List β) (p : β → Bool) :
    (l.flatMap f).filter p = l.flatMap fun a => (f a).filter p := by
  induction l with
  | nil => rfl
  | cons a t ih => simp [List.flatMap_cons, List.filter_append, ih]

/-- A `flatMap` all of whose pieces are empty is empty. -/
theorem flatMap_eq_nil_of {α β : Type} (l : List α) (f : α → List β)
    (h : ∀ k ∈ l, f k = []) : l.flatMap f = [] := by
  induction l with
  | nil => rfl
  | cons a t ih =>
    simp only [List.flatMap_cons, h a (List.mem_cons_self a t), List.nil_append]
    exact ih fun k hk => h k (List.mem_cons_of_mem a hk)

/-- A `flatMap` over a duplicate-free list whose pieces are all empty
except possibly at `i` collapses to the piece at `i`. -/
theorem flatMap_eq_single {α β : Type} (l : List α) (f : α → List β) (i : α)
    (hi : i ∈ l) (hn : l.Nodup) (h : ∀ k ∈ l, k ≠ i → f k = []) :
    l.flatMap f = f i := by
  induction l with
  | nil => cases hi
  | cons a t ih =>
    rcases List.mem_cons.mp hi with ha | ht
    · subst ha
      have ht0 : t.flatMap f = [] :=
        flatMap_eq_nil_of t f fun k hk =>
          h k (List.mem_cons_of_mem i hk)
            (fun he => (List.nodup_cons.mp hn).1 (he ▸ hk))
      rw [List.flatMap_cons, ht0, List.append_nil]
    · have ha : a ≠ i := fun he => (List.nodup_cons.mp hn).1 (he ▸ ht)
      have hfa : f a = [] := h a (List.mem_cons_self a t) ha
      rw [List.flatMap_cons, hfa, List.nil_append]
      exact ih ht (List.nodup_cons.mp hn).2
        (fun k hk hki => h k (List.mem_cons_of_mem a hk) hki)

/-- Closed form of `connAtom` at an in-range increasing pair. -/
theorem connAtom_in_range (sqrt : ℚ → ℚ) (ps : List Particle) (i j : ℕ)
    (hij : i < j) (hi : i < ps.length) (hj : j < ps.length) :
    connAtom sqrt ps i j =
      if particleDist sqrt ps[i] ps[j] < 150 then
        [(i, j, connAlpha (particleDist sqrt ps[i] ps[j]))]
      else [] := by
  unfold connAtom
  rw [if_pos hij, List.getElem?_eq_getElem hi, List.getElem?_eq_getElem hj]

/-- Outside increasing pairs `connAtom` is empty. -/
theorem connAtom_not_lt (sqrt : ℚ → ℚ) (ps : List Particle) (i j : ℕ)
    (h : ¬ i < j) : connAtom sqrt ps i j = [] := by
  unfold connAtom
  rw [if_neg h]

/-- A `connAtom` at a pair other than `(i, j)` contributes no line between
`i` and `j` (with `i < j`). -/
theorem filter_connAtom_ne (sqrt : ℚ → ℚ) (ps : List Particle) (i j i2 j2 : ℕ)
    (hij : i < j) (hi2 : i2 < ps.length) (hj2 : j2 < ps.length)
    (hne : ¬(i2 = i ∧ j2 = j)) :
    (connAtom sqrt ps i2 j2).filter (isLineBetween i j) = [] := by
  by_cases hlt : i2 < j2
  · rw [connAtom_in_range sqrt ps i2 j2 hlt hi2 hj2]
    by_cases hpd : particleDist sqrt ps[i2] ps[j2] < 150
    · rw [if_pos hpd]
      have hfalse : isLineBetween i j (i2, j2, connAlpha (particleDist sqrt ps[i2] ps[j2])) = false := by
        simp only [isLineBetween]
        simp only [Bool.or_eq_false_iff, Bool.and_eq_false_iff, decide_eq_false_iff_not]
        omega
      simp [List.filter, hfalse]
    · rw [if_neg hpd]
      rfl
  · rw [connAtom_not_lt sqrt ps i2 j2 hlt]
    rfl

/-- The lines a frame draws between the pair `i < j` are exactly the
single-`connAtom` contribution at `(i, j)`. -/
theorem linesBetween_connectionLines (sqrt : ℚ → ℚ) (ps : List Particle) (i j : ℕ)
    (hi : i < ps.length) (hj : j < ps.length) (hij : i < j) :
    linesBetween i j (connectionLines sqrt ps) =
      if particleDist sqrt ps[i] ps[j] < 150 then
        [(i, j, connAlpha (particleDist sqrt ps[i] ps[j]))]
      else [] := by
  have step1 : linesBetween i j (connectionLines sqrt ps) =
      (List.range ps.length).flatMap fun i2 =>
        ((List.range ps.length).flatMap fun j2 => connAtom sqrt ps i2 j2).filter
          (isLineBetween i j) :=
    filter_flatMap_eq (List.range ps.length) _ (isLineBetween i j)
  rw [step1]
  rw [flatMap_eq_single (List.range ps.length)
    (fun i2 => ((List.range ps.length).flatMap fun j2 => connAtom sqrt ps i2 j2).filter
      (isLineBetween i j))
    i (List.mem_range.mpr hi) (List.nodup_range ps.length) ?side1]
  case side1 =>
    intro k hkmem hk
    show ((List.range ps.length).flatMap fun j2 => connAtom sqrt ps k j2).filter
        (isLineBetween i j) = []
    rw [filter_flatMap_eq]
    exact flatMap_eq_nil_of _ _ fun k2 hk2 =>
      filter_connAtom_ne sqrt ps i j k k2 hij (List.mem_range.mp hkmem)
        (List.mem_range.mp hk2) (fun hc => hk hc.1)
  show ((List.range ps.length).flatMap fun j2 => connAtom sqrt ps i j2).filter
      (isLineBetween i j) = _
  rw [filter_flatMap_eq]
  rw [flatMap_eq_single (List.range ps.length)
    (fun j2 => (connAtom sqrt ps i j2).filter (isLineBetween i j))
    j (List.mem_range.mpr hj) (List.nodup_range ps.length) ?side2]
  case side2 =>
    intro k hkmem hk
    show (connAtom sqrt ps i k).filter (isLineBetween i j) = []
    exact filter_connAtom_ne sqrt ps i j i k hij hi
      (List.mem_range.mp hkmem) (fun hc => hk hc.2)
  show (connAtom sqrt ps i j).filter (isLineBetween i j) = _
  rw [connAtom_in_range sqrt ps i j hij hi hj]
  by_cases hd : particleDist sqrt ps[i] ps[j] < 150
  · rw [if_pos hd]
    have htrue : isLineBetween i j (i, j, connAlpha (particleDist sqrt ps[i] ps[j])) = true := by
      simp [isLineBetween]
    simp [List.filter, htrue]
  · rw [if_neg hd]
    rfl

/-- Clamping into `[0, w]` cannot bring a point that moved radially away
from any coordinate `mx` closer to `mx` (squared form): if both clamps
land on the same side of `mx` the order is preserved, and if the clamp has
crossed `mx` then it is saturated and both points clamp to the same
value. -/
theorem clamp_sq_mono (w mx a b c : ℚ)
    (hab : b - mx = c * (a - mx)) (hc : 1 ≤ c) :
    (max 0 (min w a) - mx) * (max 0 (min w a) - mx) ≤
      (max 0 (min w b) - mx) * (max 0 (min w b) - mx) := by
  rcases le_total mx a with hma | ham
  · have hba : a ≤ b := by nlinarith [mul_nonneg (sub_nonneg.mpr hc) (sub_nonneg.mpr hma)]
    have hmono : max 0 (min w a) ≤ max 0 (min w b) :=
      max_le_max le_rfl (min_le_min le_rfl hba)
    rcases le_or_lt mx (max 0 (min w a)) with hA1 | hA2
    · exact mul_self_le_mul_self (by linarith) (by linarith)
    · have hwa : w < a := by
        by_contra hcon
        push_neg at hcon
        rw [min_eq_right hcon] at hA2
        have hax : a ≤ max 0 a := le_max_right 0 a
        linarith
      have heq : max 0 (min w b) = max 0 (min w a) := by
        rw [min_eq_left hwa.le, min_eq_left (hwa.trans_le hba).le]
      exact le_of_eq (by rw [heq])
  · have hba : b ≤ a := by nlinarith [mul_nonneg (sub_nonneg.mpr hc) (sub_nonneg.mpr ham)]
    have hmono : max 0 (min w b) ≤ max 0 (min w a) :=
      max_le_max le_rfl (min_le_min le_rfl hba)
    rcases le_or_lt (max 0 (min w a)) mx with hB1 | hB2
    · calc (max 0 (min w a) - mx) * (max 0 (min w a) - mx)
          = (mx - max 0 (min w a)) * (mx - max 0 (min w a)) := by ring
        _ ≤ (mx - max 0 (min w b)) * (mx - max 0 (min w b)) :=
            mul_self_le_mul_self (by linarith) (by linarith)
        _ = (max 0 (min w b) - mx) * (max 0 (min w b) - mx) := by ring
    · have hlt : a < max 0 (min w a) := lt_of_le_of_lt ham hB2
      have hclampa : max 0 (min w a) = 0 := by
        rcases max_cases 0 (min w a) with ⟨hcase, _⟩ | ⟨hcase, _⟩
        · exact hcase
        · exfalso
          have hmin : min w a ≤ a := min_le_right w a
          rw [hcase] at hlt
          linarith
      have ha0 : a < 0 := by rw [hclampa] at hlt; exact hlt
      have hmin0 : min w b ≤ 0 := by
        have h1 : min w b ≤ b := min_le_right w b
        linarith
      have hclampb : max 0 (min w b) = 0 := max_eq_left hmin0
      exact le_of_eq (by rw [hclampa, hclampb])

/-- On the NaN-free path the total-division model's result is clamped into
bounds (nonnegative canvas dimensions). -/
theorem update_within_bounds (sqrt : ℚ → ℚ) (w h : ℚ) (mouse : Option (ℚ × ℚ))
    (p : Particle) (hw : 0 ≤ w) (hh : 0 ≤ h) :
    0 ≤ (update sqrt w h mouse p).x ∧ (update sqrt w h mouse p).x ≤ w ∧
    0 ≤ (update sqrt w h mouse p).y ∧ (update sqrt w h mouse p).y ≤ h := by
  rw [update_eq_steps]
  exact ⟨le_max_left _ _, max_le hw (min_le_left _ _),
         le_max_left _ _, max_le hh (min_le_left _ _)⟩

/-- Claim C1 counterexample: with the pointer at `(4, 6)`, the particle
`(1, 2)` with velocity `(3, 4)` steps exactly onto the pointer; the guard
`dist < 120` passes with divisor 0, the source computes `0/0 = NaN`, and
NaN propagates through `Math.min` / `Math.max`, so the post-update
position is NaN and satisfies neither `0 ≤ x ≤ w` nor `0 ≤ y ≤ h` —
modelled by `updateNaN` returning `none` at this pointer state, so no
in-bounds post-update position exists and the claim's "any pointer state"
fails. -/
theorem update_position_clamped_counterexample :
    repelDivisionReached (fun _ => 0) (4, 6) ⟨1, 2, 3, 4, 1, 1⟩ = true ∧
    repelDivisor (fun _ => 0) (4, 6) ⟨1, 2, 3, 4, 1, 1⟩ = 0 ∧
    updateNaN (fun _ => 0) 100 100 (some (4, 6)) ⟨1, 2, 3, 4, 1, 1⟩ = none := by
  norm_num [repelDivisionReached, repelDivisor, updateNaN]

/-- Claim C1 (amended): for every `update` in which the pointer is absent
or the repulsion division is not reached with a zero divisor (the
velocity-stepped position does not coincide with the pointer), the NaN
path is avoided and the post-update position satisfies
`0 ≤ x ≤ canvasWidth` and `0 ≤ y ≤ canvasHeight` (canvas dimensions are
nonnegative by the DOM's type). -/
theorem update_position_clamped_noncoincident (sqrt : ℚ → ℚ) (w h : ℚ)
    (mouse : Option (ℚ × ℚ)) (p : Particle) (hw : 0 ≤ w) (hh : 0 ≤ h)
    (hsafe : ∀ m, mouse = some m →
      ¬(repelDivisor sqrt m p < 120 ∧ repelDivisor sqrt m p = 0)) :
    updateNaN sqrt w h mouse p = some (update sqrt w h mouse p) ∧
    0 ≤ (update sqrt w h mouse p).x ∧ (update sqrt w h mouse p).x ≤ w ∧
    0 ≤ (update sqrt w h mouse p).y ∧ (update sqrt w h mouse p).y ≤ h := by
  have hbounds := update_within_bounds sqrt w h mouse p hw hh
  cases mouse with
  | none => exact ⟨rfl, hbounds⟩
  | some m =>
    refine ⟨?_, hbounds⟩
    simp only [updateNaN]
    rw [if_neg (hsafe m rfl)]

/-- Witness for the amended C1 at a concrete noncoincident input (divisor
5). -/
theorem update_position_clamped_noncoincident_witness :
    updateNaN (fun _ => 5) 100 100 (some (4, 6)) ⟨1, 2, 3, 4, 1, 1⟩ =
      some (update (fun _ => 5) 100 100 (some (4, 6)) ⟨1, 2, 3, 4, 1, 1⟩) ∧
    0 ≤ (update (fun _ => 5) 100 100 (some (4, 6)) ⟨1, 2, 3, 4, 1, 1⟩).x ∧
    (update (fun _ => 5) 100 100 (some (4, 6)) ⟨1, 2, 3, 4, 1, 1⟩).x ≤ 100 ∧
    0 ≤ (update (fun _ => 5) 100 100 (some (4, 6)) ⟨1, 2, 3, 4, 1, 1⟩).y ∧
    (update (fun _ => 5) 100 100 (some (4, 6)) ⟨1, 2, 3, 4, 1, 1⟩).y ≤ 100 :=
  update_position_clamped_noncoincident (fun _ => 5) 100 100 (some (4, 6))
    ⟨1, 2, 3, 4, 1, 1⟩ (by norm_num) (by norm_num)
    (by
      intro m hm
      injection hm with hm2
      subst hm2
      norm_num [repelDivisor])

/-- Claim C2: `update` performs exactly these steps in this order: velocity
step, then the conditional repulsive displacement of magnitude
`(120 - dist)/120 * 2` along the normalized pointer-to-particle vector,
then velocity reflection at crossed bounds, then the clamp into bounds. -/
theorem update_steps_in_order (sqrt : ℚ → ℚ) (w h : ℚ) (mouse : Option (ℚ × ℚ))
    (p : Particle) :
    update sqrt w h mouse p =
      clampStep w h (bounceStep w h (repelStep sqrt mouse (velStep p))) :=
  update_eq_steps sqrt w h mouse p

/-- Claim C5: from the canonical lights-ON state one `toggleLight` call
returns OFF and writes the OFF presets (0.08, 0.1, 0, 0) to
ambient/desk/ceiling/fill, leaving monitor and LED untouched; a second
call restores the ON presets (0.4, 1.2, 1.5, 0.3) exactly, a round trip on
the whole state and on the returned flag. -/
theorem toggle_light_round_trip (s : Room3DState)
    (hOn : s.lightsOn = true)
    (ha : s.ambient = some (4/10)) (hd : s.deskLight = some (12/10))
    (hc : s.ceilingLight = some (15/10)) (hf : s.fillLight = some (3/10)) :
    (toggleLight s).2 = Except.ok false ∧
    (toggleLight s).1.lightsOn = false ∧
    (toggleLight s).1.ambient = some (8/100) ∧
    (toggleLight s).1.deskLight = some (1/10) ∧
    (toggleLight s).1.ceilingLight = some 0 ∧
    (toggleLight s).1.fillLight = some 0 ∧
    (toggleLight s).1.monitorLight = s.monitorLight ∧
    (toggleLight s).1.ledLight = s.ledLight ∧
    (toggleLight (toggleLight s).1).1 = s ∧
    (toggleLight (toggleLight s).1).2 = Except.ok true := by
  obtain ⟨ini, lo, am, de, mo, le, ce, fi, sc, bc⟩ := s
  simp only at hOn ha hd hc hf
  subst hOn ha hd hc hf
  refine ⟨rfl, rfl, rfl, rfl, rfl, rfl, rfl, rfl, ?_, rfl⟩
  simp [toggleLight]

/-- Witness for C5 at a concrete built room. -/
theorem toggle_light_round_trip_witness :
    (toggleLight roomStateOn).2 = Except.ok false ∧
    (toggleLight (toggleLight roomStateOn).1).1 = roomStateOn ∧
    (toggleLight (toggleLight roomStateOn).1).2 = Except.ok true :=
  ⟨(toggle_light_round_trip roomStateOn rfl rfl rfl rfl rfl).1,
   (toggle_light_round_trip roomStateOn rfl rfl rfl rfl rfl).2.2.2.2.2.2.2.2.1,
   (toggle_light_round_trip roomStateOn rfl rfl rfl rfl rfl).2.2.2.2.2.2.2.2.2⟩

/-- Claim C6 counterexample: called on the pristine module state (registry
unpopulated), `toggleLight` does fail before writing any intensity, but it
is not a no-op on the observable toggle state: `lightsOn` has already been
flipped when the null write raises. -/
theorem toggle_before_init_counterexample :
    (toggleLight roomStateUninit).2 = Except.error () ∧
    (toggleLight roomStateUninit).1.ambient = none ∧
    (toggleLight roomStateUninit).1.lightsOn ≠ roomStateUninit.lightsOn := by
  refine ⟨rfl, rfl, ?_⟩
  simp [toggleLight, roomStateUninit]

/-- Claim C6 (amended): invoked before the scene is built, `toggleLight`
raises before any light intensity is written — every light field is
unchanged — but the internal on/off flag has already been flipped, so the
observable toggle state changes. -/
theorem toggle_before_init_flips_flag (s : Room3DState)
    (ha : s.ambient = none) (hd : s.deskLight = none) (hm : s.monitorLight = none)
    (hl : s.ledLight = none) (hc : s.ceilingLight = none) (hf : s.fillLight = none) :
    (toggleLight s).2 = Except.error () ∧
    (toggleLight s).1.ambient = s.ambient ∧
    (toggleLight s).1.deskLight = s.deskLight ∧
    (toggleLight s).1.monitorLight = s.monitorLight ∧
    (toggleLight s).1.ledLight = s.ledLight ∧
    (toggleLight s).1.ceilingLight = s.ceilingLight ∧
    (toggleLight s).1.fillLight = s.fillLight ∧
    (toggleLight s).1.lightsOn = !s.lightsOn := by
  obtain ⟨ini, lo, am, de, mo, le, ce, fi, sc, bc⟩ := s
  simp only at ha hd hm hl hc hf
  subst ha hd hm hl hc hf
  exact ⟨rfl, rfl, rfl, rfl, rfl, rfl, rfl, rfl⟩

/-- Witness for the amended C6 at the pristine module state. -/
theorem toggle_before_init_flips_flag_witness :
    (toggleLight roomStateUninit).2 = Except.error () ∧
    (toggleLight roomStateUninit).1.lightsOn = !roomStateUninit.lightsOn :=
  ⟨(toggle_before_init_flips_flag roomStateUninit rfl rfl rfl rfl rfl rfl).1,
   (toggle_before_init_flips_flag roomStateUninit rfl rfl rfl rfl rfl rfl).2.2.2.2.2.2.2⟩

/-- Claim C7: at field initialization the particle count is 40 when the
viewport width is below 768 and 80 otherwise, and no later event (frame,
resize, mousemove, mouseleave) ever changes the number of particles. -/
theorem particle_count_fixed (wIn hIn : ℚ) (seed : ℕ → Particle) (evs : List FieldEvent) :
    ((initParticles wIn hIn seed).particles.length = if wIn < 768 then 40 else 80) ∧
    (wIn < 768 → (initParticles wIn hIn seed).particles.length = 40) ∧
    (768 ≤ wIn → (initParticles wIn hIn seed).particles.length = 80) ∧
    (runEvents (initParticles wIn hIn seed) evs).particles.length =
      (initParticles wIn hIn seed).particles.length := by
  have hlen : (initParticles wIn hIn seed).particles.length = particleCount wIn := by
    simp [initParticles]
  refine ⟨?_, ?_, ?_, runEvents_length _ _⟩
  · rw [hlen]; rfl
  · intro hw; rw [hlen]; unfold particleCount; rw [if_pos hw]
  · intro hw; rw [hlen]; unfold particleCount; rw [if_neg (not_lt.mpr hw)]

/-- Witness for C7 on a narrow (500px) viewport with a sample event list. -/
theorem particle_count_fixed_witness :
    (initParticles 500 600 (fun _ => seedParticle)).particles.length = 40 ∧
    (runEvents (initParticles 500 600 (fun _ => seedParticle))
        [FieldEvent.resize 900 900, FieldEvent.mouseMove 3 4,
         FieldEvent.frame (fun _ => 0), FieldEvent.mouseLeave]).particles.length =
      (initParticles 500 600 (fun _ => seedParticle)).particles.length :=
  ⟨(particle_count_fixed 500 600 (fun _ => seedParticle) []).2.1 (by norm_num),
   (particle_count_fixed 500 600 (fun _ => seedParticle)
      [FieldEvent.resize 900 900, FieldEvent.mouseMove 3 4,
       FieldEvent.frame (fun _ => 0), FieldEvent.mouseLeave]).2.2.2⟩

/-- Claim C8: when the pointer is present and the velocity-stepped position
coincides with it, the guard `dist < 120` passes with `dist = 0`, so the
repulsion's division is reached with a zero divisor; for any strictly
positive distance below 120 the divisor is nonzero, hence division-safe. -/
theorem repulsion_division_by_zero (sqrt : ℚ → ℚ) (mx my : ℚ) (p : Particle)
    (h0 : sqrt 0 = 0) (hx : p.x + p.speedX = mx) (hy : p.y + p.speedY = my) :
    (repelDivisionReached sqrt (mx, my) p = true ∧
      repelDivisor sqrt (mx, my) p = 0) ∧
    ∀ (sqrt2 : ℚ → ℚ) (m2 : ℚ × ℚ) (q : Particle),
      0 < repelDivisor sqrt2 m2 q → repelDivisor sqrt2 m2 q < 120 →
      repelDivisor sqrt2 m2 q ≠ 0 := by
  have hdiv : repelDivisor sqrt (mx, my) p = 0 := by
    unfold repelDivisor
    rw [hx, hy]
    simp [h0]
  refine ⟨⟨?_, hdiv⟩, fun sqrt2 m2 q h1 _ => h1.ne'⟩
  unfold repelDivisionReached
  rw [hdiv]
  simp only [decide_eq_true_eq]
  norm_num

/-- Witness for C8: particle `(1, 2)` with velocity `(3, 4)` steps exactly
onto the pointer `(4, 6)`. -/
theorem repulsion_division_by_zero_witness :
    repelDivisionReached (fun _ => 0) (4, 6) ⟨1, 2, 3, 4, 1, 1⟩ = true ∧
    repelDivisor (fun _ => 0) (4, 6) ⟨1, 2, 3, 4, 1, 1⟩ = 0 :=
  (repulsion_division_by_zero (fun _ => 0) 4 6 ⟨1, 2, 3, 4, 1, 1⟩
    rfl (by norm_num) (by norm_num)).1

/-- Claim C9: starting from an unbuilt module state, `init3DRoom` builds
the scene exactly once: the first call sets the guard and increments the
construction count by one, and a second call (with any container) returns
the state exactly as the first call left it. -/
theorem init3droom_builds_once (s : Room3DState) (c c2 : Container)
    (h : s.isInitialized = false) :
    (init3DRoom s c).isInitialized = true ∧
    (init3DRoom s c).buildCount = s.buildCount + 1 ∧
    init3DRoom (init3DRoom s c) c2 = init3DRoom s c ∧
    (init3DRoom (init3DRoom s c) c2).buildCount = s.buildCount + 1 := by
  simp [init3DRoom, h]

/-- Witness for C9 on the pristine module state and two containers. -/
theorem init3droom_builds_once_witness :
    (init3DRoom roomStateUninit ⟨800, 600⟩).isInitialized = true ∧
    (init3DRoom roomStateUninit ⟨800, 600⟩).buildCount = roomStateUninit.buildCount + 1 ∧
    init3DRoom (init3DRoom roomStateUninit ⟨800, 600⟩) ⟨100, 50⟩ =
      init3DRoom roomStateUninit ⟨800, 600⟩ ∧
    (init3DRoom (init3DRoom roomStateUninit ⟨800, 600⟩) ⟨100, 50⟩).buildCount =
      roomStateUninit.buildCount + 1 :=
  init3droom_builds_once roomStateUninit ⟨800, 600⟩ ⟨100, 50⟩ rfl

/-- Claim C10: `update` leaves the particle's `size` and `opacity` exactly
as they were; only position and velocity are written. -/
theorem update_preserves_size_opacity (sqrt : ℚ → ℚ) (w h : ℚ)
    (mouse : Option (ℚ × ℚ)) (p : Particle) :
    (update sqrt w h mouse p).size = p.size ∧
    (update sqrt w h mouse p).opacity = p.opacity :=
  ⟨rfl, rfl⟩

/-- Claim C4: in one rendered frame, an unordered pair of particles at
distance at least 150 gets no connecting line; a pair below 150 gets
exactly one line, with alpha `0.08 * (1 - d/150)`, equal to 0.08 at
`d = 0` and reaching 0 at `d = 150`. -/
theorem connection_lines_pair (sqrt : ℚ → ℚ) (ps : List Particle) (i j : ℕ)
    (hi : i < ps.length) (hj : j < ps.length) (hij : i < j) :
    (150 ≤ particleDist sqrt ps[i] ps[j] →
      linesBetween i j (connectionLines sqrt ps) = []) ∧
    (particleDist sqrt ps[i] ps[j] < 150 →
      linesBetween i j (connectionLines sqrt ps) =
        [(i, j, connAlpha (particleDist sqrt ps[i] ps[j]))]) ∧
    (∀ d : ℚ, connAlpha d = 8/100 * (1 - d / 150)) ∧
    connAlpha 0 = 8/100 ∧ connAlpha 150 = 0 := by
  have key := linesBetween_connectionLines sqrt ps i j hi hj hij
  refine ⟨fun hge => ?_, fun hlt => ?_, fun d => rfl,
    by norm_num [connAlpha], by norm_num [connAlpha]⟩
  · rw [key, if_neg (not_lt.mpr hge)]
  · rw [key, if_pos hlt]

/-- Witness for C4 on a two-particle frame at distance 50. -/
theorem connection_lines_pair_witness :
    particleDist sqrtAt2500 [particleA, particleB][0] [particleA, particleB][1] < 150 ∧
    linesBetween 0 1 (connectionLines sqrtAt2500 [particleA, particleB]) =
      [(0, 1, connAlpha (particleDist sqrtAt2500 [particleA, particleB][0]
          [particleA, particleB][1]))] := by
  have hlt : particleDist sqrtAt2500 [particleA, particleB][0] [particleA, particleB][1] < 150 := by
    norm_num [particleDist, sqrtAt2500, particleA, particleB]
  exact ⟨hlt, (connection_lines_pair sqrtAt2500 [particleA, particleB] 0 1
    (by norm_num) (by norm_num) (by norm_num)).2.1 hlt⟩

/-- Claim C3 counterexample: `particleCex` starts at distance 119 < 120
from the pointer `(500, 500)` but moves away (speed −2 in y), so the
distance the code actually tests — after the velocity step — is 121 and no
repulsion applies; the post-update distance then equals the pointer-free
one, refuting the claimed strict increase.  `sqrtAt14641` is the exact
nonnegative square root at the one point `update` evaluates it. -/
theorem repulsion_monotone_counterexample :
    ((particleCex.x + particleCex.speedX - 500) * (particleCex.x + particleCex.speedX - 500) +
      (particleCex.y + particleCex.speedY - 500) * (particleCex.y + particleCex.speedY - 500)
        = 14641) ∧
    sqrtAt14641 14641 = 121 ∧ (0:ℚ) ≤ 121 ∧ (121:ℚ) * 121 = 14641 ∧
    distSqTo 500 500 particleCex < 120 * 120 ∧
    ¬ (distSqTo 500 500 (update sqrtAt14641 1000 1000 (some (500, 500)) particleCex) >
        distSqTo 500 500 (update sqrtAt14641 1000 1000 none particleCex)) := by
  norm_num [sqrtAt14641, particleCex, distSqTo, update]

/-- Claim C3 (amended): if the pointer is present and the particle's
distance from it after the velocity step — the distance the code tests —
is strictly between 0 and 120, then the repulsion strictly increases the
(squared) distance from the pointer before bounds handling, and the full
update leaves the (squared) distance at least as large as the same update
without pointer influence (clamping can make the two equal, so the
post-clamp comparison is `≥`, not `>`); no assumption on where the pointer
lies. -/
theorem repulsion_pushes_away (sqrt : ℚ → ℚ) (w h mx my d : ℚ) (p : Particle)
    (hsq : sqrt ((p.x + p.speedX - mx) * (p.x + p.speedX - mx) +
                 (p.y + p.speedY - my) * (p.y + p.speedY - my)) = d)
    (hdd : d * d = (p.x + p.speedX - mx) * (p.x + p.speedX - mx) +
                   (p.y + p.speedY - my) * (p.y + p.speedY - my))
    (hd0 : 0 < d) (hd120 : d < 120) :
    distSqTo mx my (repelStep sqrt (some (mx, my)) (velStep p)) >
      distSqTo mx my (velStep p) ∧
    distSqTo mx my (update sqrt w h (some (mx, my)) p) ≥
      distSqTo mx my (update sqrt w h none p) := by
  have hne : d ≠ 0 := hd0.ne'
  have hrx : (repelStep sqrt (some (mx, my)) (velStep p)).x =
      p.x + p.speedX + (p.x + p.speedX - mx) / d * ((120 - d) / 120) * 2 := by
    simp only [repelStep, velStep]
    rw [hsq, if_pos hd120]
  have hry : (repelStep sqrt (some (mx, my)) (velStep p)).y =
      p.y + p.speedY + (p.y + p.speedY - my) / d * ((120 - d) / 120) * 2 := by
    simp only [repelStep, velStep]
    rw [hsq, if_pos hd120]
  have hS : 0 < (p.x + p.speedX - mx) * (p.x + p.speedX - mx) +
      (p.y + p.speedY - my) * (p.y + p.speedY - my) := by
    rw [← hdd]; exact mul_pos hd0 hd0
  have ht : 0 < (120 - d) / 120 * 2 / d := by
    apply div_pos _ hd0
    have h1 : 0 < (120 - d) / 120 := div_pos (by linarith) (by norm_num)
    linarith
  constructor
  · have lhs_eq : distSqTo mx my (repelStep sqrt (some (mx, my)) (velStep p)) =
        (1 + (120 - d) / 120 * 2 / d) * (1 + (120 - d) / 120 * 2 / d) *
          ((p.x + p.speedX - mx) * (p.x + p.speedX - mx) +
           (p.y + p.speedY - my) * (p.y + p.speedY - my)) := by
      unfold distSqTo
      rw [hrx, hry]
      field_simp
      ring
    have rhs_eq : distSqTo mx my (velStep p) =
        (p.x + p.speedX - mx) * (p.x + p.speedX - mx) +
        (p.y + p.speedY - my) * (p.y + p.speedY - my) := rfl
    rw [gt_iff_lt, rhs_eq, lhs_eq]
    nlinarith [mul_pos hS ht, mul_pos (mul_pos hS ht) ht]
  · rw [ge_iff_le, update_eq_steps, update_eq_steps]
    rw [show repelStep sqrt none (velStep p) = velStep p from rfl]
    have hbc : ∀ r : Particle,
        distSqTo mx my (clampStep w h (bounceStep w h r)) =
          (max 0 (min w r.x) - mx) * (max 0 (min w r.x) - mx) +
          (max 0 (min h r.y) - my) * (max 0 (min h r.y) - my) := fun r => rfl
    rw [hbc, hbc]
    have hvx : (velStep p).x = p.x + p.speedX := rfl
    have hvy : (velStep p).y = p.y + p.speedY := rfl
    rw [hrx, hry, hvx, hvy]
    have hc1 : (1:ℚ) ≤ 1 + (120 - d) / 120 * 2 / d := by linarith
    apply add_le_add
    · apply clamp_sq_mono w mx (p.x + p.speedX)
        (p.x + p.speedX + (p.x + p.speedX - mx) / d * ((120 - d) / 120) * 2)
        (1 + (120 - d) / 120 * 2 / d) ?_ hc1
      field_simp
      ring
    · apply clamp_sq_mono h my (p.y + p.speedY)
        (p.y + p.speedY + (p.y + p.speedY - my) / d * ((120 - d) / 120) * 2)
        (1 + (120 - d) / 120 * 2 / d) ?_ hc1
      field_simp
      ring

/-- Witness for the amended C3: pointer `(500, 500)` on a 1000×1000
canvas, particle stepping to `(500, 450)`, tested distance 50. -/
theorem repulsion_pushes_away_witness :
    distSqTo 500 500 (repelStep sqrtAt2500 (some (500, 500)) (velStep particleNear)) >
      distSqTo 500 500 (velStep particleNear) ∧
    distSqTo 500 500 (update sqrtAt2500 1000 1000 (some (500, 500)) particleNear) ≥
      distSqTo 500 500 (update sqrtAt2500 1000 1000 none particleNear) :=
  repulsion_pushes_away sqrtAt2500 1000 1000 500 500 50 particleNear
    (by norm_num [sqrtAt2500, particleNear]) (by norm_num [particleNear])
    (by norm_num) (by norm_num)
